import Mathlib

/-!
Verification of `mj_envs/envs/env_base.py` (class `MujocoEnv`), a gym-style
adapter around a MuJoCo simulation.  External collaborators (the MuJoCo sim,
the `Robot` proxy, the subclass observation/reward hooks) are shallowly
embedded: pure numeric data becomes `Rat`, numpy arrays become `List Rat`,
Python exceptions become `Except String`, and collaborator behaviour that the
claims do not depend on is carried as abstract function fields of the
environment record.
-/

namespace MjEnvs

/-- State of one MuJoCo simulation instance (`MjSim`), as read and written by
`env_base.py`: generalized position `qpos`, velocity `qvel`, the extra fields
copied by `get_env_state` (`mocap_pos`, `mocap_quat`, `site_pos`, `body_pos`),
the fields that `set_state` preserves from the old `MjSimState` (`time`,
`act`), and the derived quantities recomputed by `sim.forward()`. -/
structure SimState where
  qpos : List Rat
  qvel : List Rat
  mocap_pos : List Rat
  mocap_quat : List Rat
  site_pos : List Rat
  body_pos : List Rat
  time : Rat
  act : List Rat
  derived : List Rat
deriving Repr, DecidableEq

/-- An observation dictionary: mapping from field name to numeric array
(`self.obs_dict` in the Python source). -/
def ObsDict : Type := String → List Rat

/-- The reward dictionary produced by the subclass hook `get_reward_dict`.
Python uses a plain dict; the four required keys are modelled as `Option`
fields so that a missing key (a `KeyError` at lookup) is representable. -/
structure RwdDict where
  dense : Option Rat
  sparse : Option Rat
  solved : Option Rat
  done : Option Rat

/-- `env_info` as assembled by `get_env_infos` (the two dictionary-valued
entries `obs_dict`/`rwd_dict` are carried alongside in the `Env` record). -/
structure EnvInfo where
  time : Rat
  rwd_dense : Rat
  rwd_sparse : Rat
  solved : Rat
  done : Rat

/-- Python truthiness of a numeric scalar: `bool(v)` is `True` iff `v != 0`. -/
def pybool (v : Rat) : Bool := v != 0

/-- `np.clip(x, lo, hi)` on one scalar (for `lo <= hi`):
`min(hi, max(lo, x))`. -/
def clip (lo hi x : Rat) : Rat := min hi (max lo x)

/-- `np.clip(a, -1.0, 1.0)` applied componentwise to the action vector,
as done at the top of `MujocoEnv.step`. -/
def np_clip1 (a : List Rat) : List Rat := a.map (clip (-1) 1)

/-- Modelled from the spec: `ObsVecDict.obsdict2obsvec`
(`mj_envs/utils/obj_vec_dict.py`, not under `src/`) flattens the observation
dictionary into one vector, in the fixed order given by the configured
`obs_keys` list (spec section 3: "order of flattening is fixed by a
configured list of keys"). -/
def obsdict2obsvec (od : ObsDict) (keys : List String) : List Rat :=
  (keys.map od).flatten

/-- Scalar extraction `arr[()]` on a (squeezed) entry of a dictionary of
arrays, as in `get_env_infos`. -/
def scalar (xs : List Rat) : Rat := xs.headD 0

/-- The adapter object (`MujocoEnv` instance) together with its external
collaborators.  Function-valued fields are the opaque collaborators:
`robot_step` (`Robot.step` advancing `self.sim`), `get_sensors` /
`sensor2sim` (`Robot` sensor interface), `forward_derived` (the derived
quantities `sim.forward()` recomputes), `obsvec2obsdict`
(`ObsVecDict.obsvec2obsdict`), and the subclass hooks `get_obs_dict` /
`get_reward_dict`. -/
structure Env where
  robot_step : List Rat → SimState → SimState
  get_sensors : SimState → List Rat
  sensor2sim : List Rat → SimState → SimState
  forward_derived : SimState → List Rat
  obsvec2obsdict : List (List (List Rat)) → ObsDict
  get_obs_dict : SimState → ObsDict
  get_reward_dict : ObsDict → RwdDict
  obs_keys : List String
  rwd_mode : String
  nu : Nat
  nq : Nat
  nv : Nat
  sim : SimState
  sim_obsd : SimState
  obs_dict : ObsDict
  rwd_dict : RwdDict
  init_qpos : List Rat
  init_qvel : List Rat
  obs_dim : Nat

namespace MujocoEnv

/-- `MujocoEnv.get_obs`: read sensors from the robot, reconstruct `sim_obsd`
from them, rebuild `self.obs_dict` via the subclass hook, and flatten it to
the observation vector over `self.obs_keys`.  Returns the updated object and
the vector. -/
def get_obs (env : Env) : Env × List Rat :=
  let sen := env.get_sensors env.sim
  let sim_obsd := env.sensor2sim sen env.sim_obsd
  let obs_dict := env.get_obs_dict sim_obsd
  let obs := obsdict2obsvec obs_dict env.obs_keys
  ({ env with sim_obsd := sim_obsd, obs_dict := obs_dict }, obs)

/-- `MujocoEnv.get_env_infos`: assembles `env_info` from `self.obs_dict` and
`self.rwd_dict`; each required-key lookup on `rwd_dict` raises `KeyError`
when the key is absent (in the evaluation order of the dict literal:
`dense`, `sparse`, `solved`, `done`). -/
def get_env_infos (od : ObsDict) (rd : RwdDict) : Except String EnvInfo :=
  match rd.dense with
  | none => Except.error "KeyError: dense"
  | some dense =>
    match rd.sparse with
    | none => Except.error "KeyError: sparse"
    | some sparse =>
      match rd.solved with
      | none => Except.error "KeyError: solved"
      | some solved =>
        match rd.done with
        | none => Except.error "KeyError: done"
        | some done =>
          Except.ok { time := scalar (od "t"), rwd_dense := dense,
                      rwd_sparse := sparse, solved := solved, done := done }

/-- The lookup `env_info['rwd_' + self.rwd_mode]` in `step`: only
`rwd_dense` and `rwd_sparse` are keys of `env_info`, any other mode raises
`KeyError`. -/
def infoRwdLookup (mode : String) (info : EnvInfo) : Except String Rat :=
  if mode = "dense" then Except.ok info.rwd_dense
  else if mode = "sparse" then Except.ok info.rwd_sparse
  else Except.error "KeyError: rwd mode"

/-- What `step` returns to the caller: `obs(t+1), rew(t), done(t), info`. -/
structure StepResult where
  obs : List Rat
  reward : Rat
  done : Bool
  info : EnvInfo

/-- Phase 1 of `MujocoEnv.step`: `a = np.clip(a, -1.0, 1.0)` followed by
`self.last_ctrl = self.robot.step(ctrl_desired=a, ...)`, which advances
`self.sim` (the `step_duration`/render arguments are constants of the
environment and are absorbed into the opaque `robot_step`). -/
def stepEnvPre (env : Env) (a : List Rat) : Env :=
  { env with sim := env.robot_step (np_clip1 a) env.sim }

/-- Phase 2 of `MujocoEnv.step`: the object after `obs = self.get_obs()`. -/
def stepEnv2 (env : Env) (a : List Rat) : Env := (get_obs (stepEnvPre env a)).1

/-- The observation vector `obs` returned by `self.get_obs()` inside
`MujocoEnv.step`. -/
def stepObs (env : Env) (a : List Rat) : List Rat := (get_obs (stepEnvPre env a)).2

/-- Phase 3 of `MujocoEnv.step`:
`self.rwd_dict = self.get_reward_dict(self.obs_dict)` (the surrounding
`expand_dims`/`squeeze_dims` shape plumbing is value-preserving and
modelled as the identity). -/
def stepRwdDict (env : Env) (a : List Rat) : RwdDict :=
  (stepEnv2 env a).get_reward_dict (stepEnv2 env a).obs_dict

/-- The object state after phase 3 of `MujocoEnv.step`. -/
def stepEnv3 (env : Env) (a : List Rat) : Env :=
  { stepEnv2 env a with rwd_dict := stepRwdDict env a }

/-- `MujocoEnv.step`: clip the action to `[-1, 1]`, delegate to
`Robot.step` to advance `self.sim`, recompute the observation, rebuild
`self.rwd_dict` from `self.obs_dict` via the subclass hook, assemble
`env_info = self.get_env_infos()`, and return
`(obs, env_info['rwd_' + rwd_mode], bool(env_info['done']), env_info)`. -/
def step (env : Env) (a : List Rat) : Except String (StepResult × Env) :=
  match get_env_infos (stepEnv3 env a).obs_dict (stepEnv3 env a).rwd_dict with
  | Except.error e => Except.error e
  | Except.ok env_info =>
    match infoRwdLookup (stepEnv3 env a).rwd_mode env_info with
    | Except.error e => Except.error e
    | Except.ok reward =>
      Except.ok ({ obs := stepObs env a, reward := reward,
                   done := pybool env_info.done, info := env_info },
                 stepEnv3 env a)

/-- The `MujocoEnv` object as it stands in `__init__` just before the
initialization step `self.step(np.zeros(self.sim.model.nu))`: the two sims
are resolved, `rwd_dict`/`obs_dict` are empty dicts, and `init_qpos`,
`init_qvel`, `obs_dim` are not yet assigned (zero-initialized here). -/
def preInit (robot_step : List Rat → SimState → SimState)
    (get_sensors : SimState → List Rat)
    (sensor2sim : List Rat → SimState → SimState)
    (forward_derived : SimState → List Rat)
    (obsvec2obsdict : List (List (List Rat)) → ObsDict)
    (get_obs_dict : SimState → ObsDict)
    (get_reward_dict : ObsDict → RwdDict)
    (obs_keys : List String) (rwd_mode : String)
    (nu nq nv : Nat) (sim sim_obsd : SimState) : Env :=
  { robot_step := robot_step, get_sensors := get_sensors,
    sensor2sim := sensor2sim, forward_derived := forward_derived,
    obsvec2obsdict := obsvec2obsdict, get_obs_dict := get_obs_dict,
    get_reward_dict := get_reward_dict, obs_keys := obs_keys,
    rwd_mode := rwd_mode, nu := nu, nq := nq, nv := nv,
    sim := sim, sim_obsd := sim_obsd,
    obs_dict := fun _ => [], rwd_dict := ⟨none, none, none, none⟩,
    init_qpos := [], init_qvel := [], obs_dim := 0 }

/-- The tail of `MujocoEnv.__init__` (lines 89-97): perform one step with
the all-zeros action `np.zeros(self.sim.model.nu)`, assert the episode does
not start done, record `obs_dim = observation.size`, then record
`init_qpos`/`init_qvel` from the (post-step) `self.sim.data`. -/
def init (env0 : Env) : Except String Env :=
  match step env0 (List.replicate env0.nu 0) with
  | Except.error e => Except.error e
  | Except.ok (res, env1) =>
    if res.done then
      Except.error "AssertionError: Simulation starts in a done state."
    else
      Except.ok { env1 with obs_dim := res.obs.length,
                            init_qpos := env1.sim.qpos,
                            init_qvel := env1.sim.qvel }

/-- Modelled from the spec: `Robot.reset(qpos, qvel)`
(`mj_envs/robot/robot.py`, not under `src/`) resets the simulation it holds
(`mj_sim = self.sim`) to the given pose and velocity (spec section 6:
"Robot collaborator: ... supports pose/velocity reset"). -/
def robot_reset (qpos qvel : List Rat) (s : SimState) : SimState :=
  { s with qpos := qpos, qvel := qvel }

/-- `MujocoEnv.reset(reset_qpos=None, reset_qvel=None)`: defaults the target
pose/velocity to `init_qpos`/`init_qvel`, delegates to `Robot.reset`, and
returns `get_obs()`. -/
def reset (env : Env) (reset_qpos reset_qvel : Option (List Rat)) :
    Env × List Rat :=
  let qpos := reset_qpos.getD env.init_qpos
  let qvel := reset_qvel.getD env.init_qvel
  let env1 : Env := { env with sim := robot_reset qpos qvel env.sim }
  get_obs env1

/-- `MujocoEnv.set_state(qpos, qvel)`: assert the shapes match
`(model.nq,)` and `(model.nv,)`, build a new `MjSimState` keeping the old
state's `time` and `act`, install it, and call `sim.forward()` (which
recomputes derived quantities only; `forward_derived` is the abstract
collaborator computing them). -/
def set_state (env : Env) (qpos qvel : List Rat) : Except String Env :=
  if qpos.length = env.nq ∧ qvel.length = env.nv then
    let s := env.sim
    let s1 : SimState := { s with qpos := qpos, qvel := qvel }
    let s2 : SimState := { s1 with derived := env.forward_derived s1 }
    Except.ok { env with sim := s2 }
  else
    Except.error "AssertionError: state shape mismatch"

/-- The dictionary returned by `MujocoEnv.get_env_state`. -/
structure EnvState where
  qpos : List Rat
  qvel : List Rat
  mocap_pos : List Rat
  mocap_quat : List Rat
  site_pos : List Rat
  body_pos : List Rat

/-- `MujocoEnv.get_env_state`: copies `qpos`, `qvel`, `mocap_pos`,
`mocap_quat`, `site_pos`, `body_pos` out of the simulation. -/
def get_env_state (env : Env) : EnvState :=
  { qpos := env.sim.qpos, qvel := env.sim.qvel,
    mocap_pos := env.sim.mocap_pos, mocap_quat := env.sim.mocap_quat,
    site_pos := env.sim.site_pos, body_pos := env.sim.body_pos }

/-- One trajectory as consumed by `evaluate_success`: the per-step boolean
`solved` flags stored under `path['env_infos']['solved']`
(`np.sum` of a boolean array counts the `True` entries). -/
def solvedCount (solved : List Bool) : Nat := solved.countP (fun b => b)

/-- `MujocoEnv.evaluate_success(paths, logger=None, successful_steps=5)`
(logger branch omitted: `logger=None` only writes metrics): counts the paths
whose summed `solved` flags exceed `successful_steps` and returns
`num_success * 100.0 / num_paths`; an empty `paths` list raises
`ZeroDivisionError` at the division. -/
def evaluate_success (paths : List (List Bool)) (successful_steps : Nat) :
    Except String Rat :=
  let num_paths := paths.length
  let num_success :=
    (paths.filter (fun p => successful_steps < solvedCount p)).length
  if num_paths = 0 then
    Except.error "ZeroDivisionError: division by zero"
  else
    Except.ok ((num_success : Rat) * 100 / (num_paths : Rat))

/-- The base-class body of `MujocoEnv.get_obs_dict` (line 404): it
unconditionally raises `NotImplementedError`; subclasses must override. -/
def base_get_obs_dict (sim : SimState) : Except String ObsDict :=
  Except.error "NotImplementedError"

/-- The base-class body of `MujocoEnv.get_reward_dict` (line 412): it
unconditionally raises `NotImplementedError`; subclasses must override. -/
def base_get_reward_dict (obs_dict : ObsDict) : Except String RwdDict :=
  Except.error "NotImplementedError"

/-- The `paths` argument of `compute_path_rewards`:
`path["observations"]` of shape `(num_traj, horizon, obs_dim)` plus the
reward/done arrays the function is supposed to fill in. -/
structure Paths where
  observations : List (List (List Rat))
  rewards : List (List Rat)
  done : List (List Rat)

/-- `MujocoEnv.compute_path_rewards(paths)`: converts the observation
tensor back to a dictionary and computes `rwd_dict`, then reads the name
`reward_dict`, which is bound nowhere in the function (nor anywhere in the
module), so Python raises `NameError` before anything is returned. -/
def compute_path_rewards (env : Env) (paths : Paths) : Except String Paths :=
  let obs_dict := env.obsvec2obsdict paths.observations
  let rwd_dict := env.get_reward_dict obs_dict
  Except.error "NameError: name reward_dict is not defined"

end MujocoEnv

/-- A reward dictionary that is missing at least one of the required keys
`dense`, `sparse`, `solved`, `done`. -/
def RwdDict.missingRequired (rd : RwdDict) : Prop :=
  rd.dense = none ∨ rd.sparse = none ∨ rd.solved = none ∨ rd.done = none

section Helpers

open MujocoEnv

/-- Helper: on success, `get_env_infos` copied the `done` entry of the
reward dictionary into `env_info`. -/
theorem get_env_infos_done_eq (od : ObsDict) (rd : RwdDict) (info : EnvInfo)
    (h : get_env_infos od rd = Except.ok info) :
    rd.done = some info.done := by
  obtain ⟨dense, sparse, solved, done⟩ := rd
  cases dense <;> cases sparse <;> cases solved <;> cases done <;>
    simp only [get_env_infos] at h <;>
    first
      | exact Except.noConfusion h
      | (injection h with h2; rw [← h2])

/-- Helper: a reward dictionary missing a required key makes
`get_env_infos` raise a `KeyError`. -/
theorem get_env_infos_error_of_missing (od : ObsDict) (rd : RwdDict)
    (h : RwdDict.missingRequired rd) :
    ∃ msg, get_env_infos od rd = Except.error msg := by
  obtain ⟨dense, sparse, solved, done⟩ := rd
  cases dense <;> cases sparse <;> cases solved <;> cases done <;>
    first
      | exact ⟨_, rfl⟩
      | simp [RwdDict.missingRequired] at h

/-- Helper: inversion of a successful `step`: the returned observation is
the one computed by `get_obs`, the returned object is the phase-3 object,
and the returned `done` flag is the truthiness of the `done` entry of the
reward dictionary computed by this step. -/
theorem step_ok_inv (env : Env) (a : List Rat) (res : StepResult) (env' : Env)
    (h : MujocoEnv.step env a = Except.ok (res, env')) :
    res.obs = stepObs env a ∧ env' = stepEnv3 env a ∧
      ∃ d, (stepRwdDict env a).done = some d ∧ res.done = pybool d := by
  unfold MujocoEnv.step at h
  cases hinfo : get_env_infos (stepEnv3 env a).obs_dict (stepEnv3 env a).rwd_dict with
  | error e => rw [hinfo] at h; exact Except.noConfusion h
  | ok info =>
    rw [hinfo] at h
    dsimp only at h
    cases hr : infoRwdLookup (stepEnv3 env a).rwd_mode info with
    | error e => rw [hr] at h; exact Except.noConfusion h
    | ok reward =>
      rw [hr] at h
      dsimp only at h
      simp only [Except.ok.injEq, Prod.mk.injEq] at h
      obtain ⟨hres, henv⟩ := h
      refine ⟨by rw [← hres], henv.symm, info.done, ?_, by rw [← hres]⟩
      exact get_env_infos_done_eq _ _ _ hinfo

/-- Helper: inversion of a successful `init`: the zero-action step
succeeded and was not done, and the final object records `obs_dim` and
`init_qpos`/`init_qvel` from its outcome. -/
theorem init_ok_inv (env0 env : Env) (h : MujocoEnv.init env0 = Except.ok env) :
    ∃ res0 env1, MujocoEnv.step env0 (List.replicate env0.nu 0) = Except.ok (res0, env1) ∧
      res0.done = false ∧
      env = { env1 with obs_dim := res0.obs.length,
                        init_qpos := env1.sim.qpos,
                        init_qvel := env1.sim.qvel } := by
  unfold MujocoEnv.init at h
  cases hs : MujocoEnv.step env0 (List.replicate env0.nu 0) with
  | error e => rw [hs] at h; exact Except.noConfusion h
  | ok p =>
    obtain ⟨res0, env1⟩ := p
    rw [hs] at h
    dsimp only at h
    by_cases hd : res0.done
    · rw [if_pos hd] at h; exact Except.noConfusion h
    · rw [if_neg hd] at h
      injection h with h2
      exact ⟨res0, env1, rfl, by simpa using hd, h2.symm⟩

end Helpers

end MjEnvs

namespace MjEnvs

/-- A simulation state used to instantiate the model on concrete inputs. -/
def simW : SimState :=
  { qpos := [0], qvel := [0], mocap_pos := [], mocap_quat := [],
    site_pos := [], body_pos := [], time := 0, act := [], derived := [] }

/-- A concrete environment (one actuator, one positional and one velocity
degree of freedom) whose subclass hooks return a fully-populated reward
dictionary with `done = 0`. -/
def envW : Env :=
  MujocoEnv.preInit (fun _ s => s) (fun _ => []) (fun _ s => s) (fun _ => [])
    (fun _ _ => []) (fun _ _ => [0])
    (fun _ => { dense := some 1, sparse := some 0, solved := some 0, done := some 0 })
    ["t"] "dense" 1 1 1 simW simW

/-- A concrete environment whose reward hook omits the required key
`dense`. -/
def envM : Env :=
  MujocoEnv.preInit (fun _ s => s) (fun _ => []) (fun _ s => s) (fun _ => [])
    (fun _ _ => []) (fun _ _ => [0])
    (fun _ => { dense := none, sparse := some 0, solved := some 0, done := some 0 })
    ["t"] "dense" 1 1 1 simW simW

/-- C1: `step` clamps every component of the action to `[-1, 1]` before
delegating to the Robot, so any two actions that agree after clamping
produce identical behaviour (same observation, reward, done and info). -/
theorem step_eq_of_clip_eq (env : Env) (a₁ a₂ : List Rat)
    (h : np_clip1 a₁ = np_clip1 a₂) :
    MujocoEnv.step env a₁ = MujocoEnv.step env a₂ := by
  simp only [MujocoEnv.step, MujocoEnv.stepEnv3, MujocoEnv.stepRwdDict,
             MujocoEnv.stepEnv2, MujocoEnv.stepObs, MujocoEnv.stepEnvPre, h]

/-- C1 witness: the all-2.0 action and the all-1.0 action agree after
clamping, hence `step` treats them identically on a concrete environment. -/
theorem step_eq_of_clip_eq_witness :
    np_clip1 [2, 2] = np_clip1 [1, 1] ∧
    MujocoEnv.step envW [2, 2] = MujocoEnv.step envW [1, 1] :=
  ⟨by decide, step_eq_of_clip_eq envW [2, 2] [1, 1] (by decide)⟩

/-- C2: the `done` flag returned by `step` is `True` exactly when the
`done` entry of the reward dictionary computed that step is truthy; there
is no other termination channel. -/
theorem step_done_iff_rwd_done (env : Env) (a : List Rat)
    (res : MujocoEnv.StepResult) (env' : Env)
    (h : MujocoEnv.step env a = Except.ok (res, env')) :
    ∃ d, env'.rwd_dict.done = some d ∧ (res.done = true ↔ d ≠ 0) := by
  obtain ⟨-, henv', d, hd, hdone⟩ := step_ok_inv env a res env' h
  subst henv'
  exact ⟨d, hd, by simp [hdone, pybool, bne_iff_ne]⟩

/-- C2 witness: a concrete successful step whose returned `done` flag
matches the truthiness of the reward dictionary's `done` entry. -/
theorem step_done_iff_rwd_done_witness :
    ∃ res env', MujocoEnv.step envW [0] = Except.ok (res, env') ∧
      ∃ d, env'.rwd_dict.done = some d ∧ (res.done = true ↔ d ≠ 0) := by
  refine ⟨_, _, rfl, step_done_iff_rwd_done envW [0] _ _ rfl⟩

/-- Helper: the length of the flattened observation vector is the sum of
the per-key array lengths, in `obs_keys` order. -/
theorem length_obsdict2obsvec (od : ObsDict) (keys : List String) :
    (obsdict2obsvec od keys).length =
      (keys.map (fun k => (od k).length)).sum := by
  simp only [obsdict2obsvec, List.length_flatten, List.map_map]
  rfl

/-- Helper: the observation vector produced inside `step` is the
flattening, over `obs_keys`, of the observation dictionary evaluated at
some simulator state. -/
theorem stepObs_spec (env : Env) (a : List Rat) :
    ∃ s, MujocoEnv.stepObs env a = obsdict2obsvec (env.get_obs_dict s) env.obs_keys :=
  ⟨_, rfl⟩

/-- Helper: two environments sharing the observation hook and key order,
with state-independent hook shapes, produce step observations of equal
length. -/
theorem stepObs_length_eq (envA envB : Env) (a b : List Rat)
    (hg : envA.get_obs_dict = envB.get_obs_dict)
    (hk : envA.obs_keys = envB.obs_keys)
    (hshape : ∀ s s' k, (envB.get_obs_dict s k).length = (envB.get_obs_dict s' k).length) :
    (MujocoEnv.stepObs envA a).length = (MujocoEnv.stepObs envB b).length := by
  obtain ⟨s1, h1⟩ := stepObs_spec envA a
  obtain ⟨s0, h0⟩ := stepObs_spec envB b
  rw [h1, h0, hg, hk, length_obsdict2obsvec, length_obsdict2obsvec]
  have hfun : (fun k => (envB.get_obs_dict s1 k).length) =
      (fun k => (envB.get_obs_dict s0 k).length) :=
    funext fun k => hshape s1 s0 k
  rw [hfun]

/-- C3: provided the subclass observation hook produces arrays of
state-independent lengths, every successful `step` returns an observation
vector whose size equals the `obs_dim` recorded at construction, and the
recorded `obs_dim` never changes. -/
theorem step_obs_dim_fixed (env0 env : Env) (a : List Rat)
    (res : MujocoEnv.StepResult) (env' : Env)
    (hshape : ∀ s s' k, (env0.get_obs_dict s k).length = (env0.get_obs_dict s' k).length)
    (hinit : MujocoEnv.init env0 = Except.ok env)
    (hstep : MujocoEnv.step env a = Except.ok (res, env')) :
    res.obs.length = env.obs_dim ∧ env'.obs_dim = env.obs_dim := by
  obtain ⟨res0, env1, hs0, -, henv⟩ := init_ok_inv env0 env hinit
  obtain ⟨hobs0, henv1, -⟩ := step_ok_inv env0 _ res0 env1 hs0
  subst henv1
  subst henv
  obtain ⟨hobs, henv', -⟩ := step_ok_inv _ a res env' hstep
  subst henv'
  refine ⟨?_, rfl⟩
  show res.obs.length = res0.obs.length
  rw [hobs, hobs0]
  exact stepObs_length_eq _ env0 _ _ rfl rfl hshape

/-- C3 witness: a concretely constructed environment whose hook has
state-independent shapes; stepping it returns an observation of the
recorded size. -/
theorem step_obs_dim_fixed_witness :
    (∀ s s' k, (envW.get_obs_dict s k).length = (envW.get_obs_dict s' k).length) ∧
    ∃ env res env', MujocoEnv.init envW = Except.ok env ∧
      MujocoEnv.step env [0] = Except.ok (res, env') ∧
      res.obs.length = env.obs_dim ∧ env'.obs_dim = env.obs_dim := by
  refine ⟨fun _ _ _ => rfl, _, _, _, rfl, rfl,
    step_obs_dim_fixed envW _ [0] _ _ (fun _ _ _ => rfl) rfl rfl⟩

/-- C4: out of `N` trajectories, if exactly `k` have their `solved` flags
true for more than `successful_steps` steps, `evaluate_success` returns
the percentage `100 * k / N` (the empty batch instead raises
`ZeroDivisionError`). -/
theorem evaluate_success_percentage (paths : List (List Bool))
    (s k N : Nat)
    (hk : paths.countP (fun p => decide (s < MujocoEnv.solvedCount p)) = k)
    (hN : paths.length = N) (hpos : 0 < N) :
    MujocoEnv.evaluate_success paths s =
      Except.ok (100 * (k : Rat) / (N : Rat)) := by
  unfold MujocoEnv.evaluate_success
  rw [if_neg (by omega : ¬ paths.length = 0)]
  rw [← List.countP_eq_length_filter, hk, hN, mul_comm]

/-- C4 witness: two trajectories, one solved for 2 > 1 steps, give a 50%
success rate. -/
theorem evaluate_success_percentage_witness :
    [[true, true], [false, true]].countP
        (fun p => decide (1 < MujocoEnv.solvedCount p)) = 1 ∧
    (0 : Nat) < 2 ∧
    MujocoEnv.evaluate_success [[true, true], [false, true]] 1 =
      Except.ok (100 * (1 : Rat) / (2 : Rat)) :=
  ⟨by decide, by decide,
    evaluate_success_percentage [[true, true], [false, true]] 1 1 2
      (by decide) (by decide) (by decide)⟩

/-- C5: a no-argument `reset()` followed by reading the simulator state
(`get_env_state`) yields exactly the `init_qpos`/`init_qvel` recorded at
construction. -/
theorem reset_restores_init_state (env : Env) :
    (MujocoEnv.get_env_state (MujocoEnv.reset env none none).1).qpos = env.init_qpos ∧
    (MujocoEnv.get_env_state (MujocoEnv.reset env none none).1).qvel = env.init_qvel :=
  ⟨rfl, rfl⟩

/-- C6: for shape-correct `qpos`/`qvel`, `set_state` succeeds and a
subsequent `get_env_state` returns exactly the same pose and velocity. -/
theorem set_state_roundtrip (env : Env) (qpos qvel : List Rat)
    (hq : qpos.length = env.nq) (hv : qvel.length = env.nv) :
    ∃ env', MujocoEnv.set_state env qpos qvel = Except.ok env' ∧
      (MujocoEnv.get_env_state env').qpos = qpos ∧
      (MujocoEnv.get_env_state env').qvel = qvel := by
  unfold MujocoEnv.set_state
  rw [if_pos ⟨hq, hv⟩]
  exact ⟨_, rfl, rfl, rfl⟩

/-- C6 witness: a concrete shape-correct round trip through
`set_state`/`get_env_state`. -/
theorem set_state_roundtrip_witness :
    [(5 : Rat)].length = envW.nq ∧ [(7 : Rat)].length = envW.nv ∧
    ∃ env', MujocoEnv.set_state envW [5] [7] = Except.ok env' ∧
      (MujocoEnv.get_env_state env').qpos = [5] ∧
      (MujocoEnv.get_env_state env').qvel = [7] :=
  ⟨rfl, rfl, set_state_roundtrip envW [5] [7] rfl rfl⟩

/-- C7: the base-class observation and reward hooks raise
`NotImplementedError` on every input; a subclass must override them. -/
theorem base_hooks_raise_not_implemented :
    (∀ sim, MujocoEnv.base_get_obs_dict sim = Except.error "NotImplementedError") ∧
    (∀ od, MujocoEnv.base_get_reward_dict od = Except.error "NotImplementedError") :=
  ⟨fun _ => rfl, fun _ => rfl⟩

/-- C8: if the reward dictionary computed by this step is missing any of
the required keys `dense`, `sparse`, `solved`, `done`, then `step` raises
an error (a `KeyError` out of `get_env_infos`) instead of returning a
malformed reward. -/
theorem step_error_of_missing_rwd_key (env : Env) (a : List Rat)
    (h : RwdDict.missingRequired (MujocoEnv.stepRwdDict env a)) :
    ∃ msg, MujocoEnv.step env a = Except.error msg := by
  obtain ⟨msg, hmsg⟩ := get_env_infos_error_of_missing
    ((MujocoEnv.stepEnv3 env a).obs_dict) ((MujocoEnv.stepEnv3 env a).rwd_dict) h
  refine ⟨msg, ?_⟩
  unfold MujocoEnv.step
  rw [hmsg]

/-- C8 witness: stepping a concrete environment whose reward hook omits
the `dense` key fails with an error. -/
theorem step_error_of_missing_rwd_key_witness :
    RwdDict.missingRequired (MujocoEnv.stepRwdDict envM [0]) ∧
    ∃ msg, MujocoEnv.step envM [0] = Except.error msg :=
  ⟨Or.inl rfl, step_error_of_missing_rwd_key envM [0] (Or.inl rfl)⟩

/-- C9: `compute_path_rewards` computes `rwd_dict` but then reads the
unbound name `reward_dict`, so on every input it raises `NameError` and
never returns. -/
theorem compute_path_rewards_always_name_error (env : Env) (paths : MujocoEnv.Paths) :
    MujocoEnv.compute_path_rewards env paths =
      Except.error "NameError: name reward_dict is not defined" :=
  rfl

/-- C10: a successfully constructed adapter performed one step with the
all-zeros action, that step reported `done = False` (otherwise the
assertion fails), and `init_qpos`/`init_qvel` are the simulator pose and
velocity observed after that zero-action step. -/
theorem init_zero_step_not_done (env0 env : Env)
    (h : MujocoEnv.init env0 = Except.ok env) :
    ∃ res env1, MujocoEnv.step env0 (List.replicate env0.nu 0) = Except.ok (res, env1) ∧
      res.done = false ∧
      env.init_qpos = env1.sim.qpos ∧ env.init_qvel = env1.sim.qvel := by
  obtain ⟨res0, env1, hs, hdone, henv⟩ := init_ok_inv env0 env h
  subst henv
  exact ⟨res0, env1, hs, hdone, rfl, rfl⟩

/-- C10 witness: a concrete construction succeeds, its zero-action step is
not done, and the recorded initial state is the post-step one. -/
theorem init_zero_step_not_done_witness :
    ∃ env, MujocoEnv.init envW = Except.ok env ∧
      ∃ res env1, MujocoEnv.step envW (List.replicate envW.nu 0) = Except.ok (res, env1) ∧
        res.done = false ∧
        env.init_qpos = env1.sim.qpos ∧ env.init_qvel = env1.sim.qvel := by
  refine ⟨_, rfl, init_zero_step_not_done envW _ rfl⟩

end MjEnvs
